import Mathlib

/-!
Shallow embedding of `upload.py` from the `cern-opendata-uploader`
repository: a batch tool that reads open-data collection manifests and
registers each described file against a storage REST API.

The script is linear Python; the embedding models:

* `strip_server_url` together with the part of CPython `urllib.parse.urlparse`
  semantics it depends on;
* `os.path.splitext` (the POSIX variant) used to classify index URLs;
* `register_file`, with the HTTP outcome of its single POST supplied by an
  oracle; its Python return value is `True`, `False` or the implicit `None`
  of the uncovered exception path, modelled as `Option Bool`;
* `get_files_and_json_indexes_urls`, `register_files_from_index`, and the
  top-level driver loop with its running totals.

Network effects are modelled by oracles: `net : Nat -> HttpOutcome` gives the
outcome of the k-th registration POST of the run, and `docs : String ->
List FileSpec` gives the parsed body of each index document that a fetch
would return.  Manifest-fetch failures raise uncaught exceptions in the
script and are outside the modelled behaviour.
-/

/-! ### Python string helpers on `List Char` -/

/-- Index of the first occurrence of `ch`, i.e. Python `s.find(ch)` with
`none` for `-1`. -/
def findIdxChar (ch : Char) (l : List Char) : Option Nat :=
  l.findIdx? (fun c => c = ch)

/-- Index of the last occurrence of `ch`, i.e. Python `s.rfind(ch)`,
with `-1 : Int` when absent. -/
def rfindIdxChar (ch : Char) (l : List Char) : Int :=
  match (l.reverse.findIdx? (fun c => c = ch)) with
  | none => -1
  | some j => ((l.length - 1 - j : Nat) : Int)

/-- Python `s.split(ch, 1)`: split at the first occurrence of `ch`; when
`ch` is absent this returns `(l, [])`, matching the callers in `urlsplit`
which leave the second component empty in that case. -/
def splitOnceChar (ch : Char) (l : List Char) : List Char × List Char :=
  match findIdxChar ch l with
  | none => (l, [])
  | some i => (l.take i, l.drop (i + 1))

/-- Python `s.find(ch, start)`: first occurrence at index `start` or
later. -/
def findIdxCharFrom (ch : Char) (start : Nat) (l : List Char) : Option Nat :=
  ((l.drop start).findIdx? (fun c => c = ch)).map (fun i => i + start)

/-! ### CPython `urllib.parse` model

Modelled from CPython `urlsplit`/`urlparse` (3.11 line): removal of the
unsafe bytes tab, CR and LF; scheme detection requiring a `:` at positive
index, an ASCII-alphabetic first character and scheme characters up to the
colon; netloc after `//` up to the first of `/ ? #`; fragment then query
split; parameter split for schemes in `uses_params`.  The `ValueError`
raised for mismatched IPv6 brackets in the netloc and the non-ASCII netloc
check are not modelled: no claim touches inputs with brackets, and on all
bracket-free inputs the model agrees with CPython. -/

/-- CPython `scheme_chars`: ASCII letters, digits and `+`, `-`, `.`. -/
def isSchemeChar (c : Char) : Bool :=
  c.isAlphanum || c = '+' || c = '-' || c = '.'

/-- CPython `_UNSAFE_URL_BYTES_TO_REMOVE`: `urlsplit` deletes every tab,
carriage return and line feed from the URL before parsing. -/
def removeUnsafeBytes (l : List Char) : List Char :=
  l.filter (fun c => !(c = '\t' || c = '\r' || c = '\n'))

/-- Result of `urllib.parse.urlparse`. -/
structure ParseResult where
  scheme : String
  netloc : String
  path : String
  params : String
  query : String
  fragment : String
deriving DecidableEq

/-- CPython `_splitnetloc(url, 2)` on the part after `//`: the netloc runs
up to the first of `/`, `?`, `#`. -/
def splitnetloc (rest : List Char) : List Char × List Char :=
  match rest.findIdx? (fun c => c = '/' || c = '?' || c = '#') with
  | none => (rest, [])
  | some delim => (rest.take delim, rest.drop delim)

/-- Scheme detection step of `urlsplit`: if the URL has a `:` at a positive
index, starts with an ASCII letter and every character before the colon is
a scheme character, return the lower-cased scheme and the remainder after
the colon; otherwise no scheme. -/
def splitScheme (url : List Char) : List Char × List Char :=
  match findIdxChar ':' url with
  | none => ([], url)
  | some i =>
    if 0 < i ∧ (url.headD ' ').isAlpha ∧ (url.take i).all isSchemeChar then
      ((url.take i).map Char.toLower, url.drop (i + 1))
    else
      ([], url)

/-- CPython `urlsplit` (fragments allowed), after unsafe-byte removal:
scheme, netloc, path, query, fragment. -/
def urlsplitChars (url0 : List Char) :
    List Char × List Char × List Char × List Char × List Char :=
  let url1 := removeUnsafeBytes url0
  let (scheme, url2) := splitScheme url1
  let (netloc, url3) :=
    match url2 with
    | '/' :: '/' :: rest => splitnetloc rest
    | _ => ([], url2)
  let (url4, fragment) := splitOnceChar '#' url3
  let (path, query) := splitOnceChar '?' url4
  (scheme, netloc, path, query, fragment)

/-- CPython `uses_params`: schemes for which `urlparse` splits parameters
off the path. -/
def uses_params : List (List Char) :=
  ["", "ftp", "hdl", "prospero", "http", "imap", "https", "shttp", "rtsp",
   "rtspu", "sip", "sips", "mms", "sftp", "tel"].map String.data

/-- CPython `_splitparams`: split the parameters of the last path segment.
Only invoked when `;` occurs in the path. -/
def splitparams (url : List Char) : List Char × List Char :=
  if url.contains '/' then
    match findIdxCharFrom ';' (rfindIdxChar '/' url).toNat url with
    | none => (url, [])
    | some i => (url.take i, url.drop (i + 1))
  else
    match findIdxChar ';' url with
    | none => (url, [])
    | some i => (url.take i, url.drop (i + 1))

/-- CPython `urlparse`: `urlsplit` plus the parameter split for schemes in
`uses_params`. -/
def urlparse (url : String) : ParseResult :=
  let (scheme, netloc, path0, query, fragment) := urlsplitChars url.data
  let (path, params) :=
    if uses_params.contains scheme ∧ path0.contains ';' then
      splitparams path0
    else
      (path0, [])
  { scheme := String.mk scheme, netloc := String.mk netloc,
    path := String.mk path, params := String.mk params,
    query := String.mk query, fragment := String.mk fragment }

/-! ### `os.path.splitext` (POSIX variant) -/

/-- CPython `posixpath.splitext` via `genericpath._splitext` with
separator `/` and extension separator `.`: split at the last dot if it
comes after the last slash and the base name is not made of leading dots
only. -/
def splitext (p : List Char) : List Char × List Char :=
  let sepIndex : Int := rfindIdxChar '/' p
  let dotIndex : Int := rfindIdxChar '.' p
  if sepIndex < dotIndex then
    let filenameIndex : Nat := (sepIndex + 1).toNat
    if ((p.drop filenameIndex).take (dotIndex.toNat - filenameIndex)).any
        (fun c => c ≠ '.') then
      (p.take dotIndex.toNat, p.drop dotIndex.toNat)
    else
      (p, [])
  else
    (p, [])

/-- The extension of a URL as the script computes it:
`[_, ext] = os.path.splitext(index_url)`. -/
def extOf (u : String) : String :=
  String.mk (splitext u.data).2

/-! ### `strip_server_url` -/

/-- `upload.py` line 103: return the path component when the identifier
parses with a (truthy, i.e. non-empty) scheme, else the identifier
verbatim. -/
def strip_server_url (storage_file_id : String) : String :=
  let parsed_url := urlparse storage_file_id
  if parsed_url.scheme ≠ "" then parsed_url.path else storage_file_id

/-! ### Run configuration and data model -/

/-- The fields of the parsed `args` object that the core uses (`upload.py`
argument table): host, space id, storage id, token, POSIX mode string, the
auto-detection-disabling flag, the optional logging frequency and the
certificate-verification-disabling flag.  The logging frequency is the
optional positive integer of the configuration surface. -/
structure RunConfig where
  host : String
  space_id : String
  storage_id : String
  token : String
  mode : String
  disable_auto_detection : Bool
  logging_freq : Option Nat
  disable_cert_verification : Bool
deriving DecidableEq

/-- One manifest entry: location identifier (key `uri_root` in a collection
manifest, `uri` in an index document), byte size, checksum. -/
structure FileSpec where
  uri : String
  size : Nat
  checksum : String
deriving DecidableEq

/-- The parsed root manifest of a collection: `metadata.files` and the
`uri_http` values of `metadata.index_files`. -/
structure Collection where
  files : List FileSpec
  index_files : List String
deriving DecidableEq

/-- The JSON body of one registration POST (`payload` in `register_file`). -/
structure Payload where
  spaceId : String
  storageId : String
  storageFileId : String
  destinationPath : String
  size : Nat
  mode : String
  xattrs : List (String × String)
  autoDetectAttributes : Bool
deriving DecidableEq

/-- One `requests.post` call: target URL, JSON payload, auth token header
and the TLS-verification argument. -/
structure Request where
  url : String
  payload : Payload
  token : String
  verify : Bool
deriving DecidableEq

/-- Outcome of one registration POST as seen by `register_file`: either a
response with an HTTP status code and body, or a transport-level exception
(DNS failure, connection refused, timeout, TLS failure) raised by
`requests.post`, carrying its message. -/
inductive HttpOutcome where
  | response (status : Nat) (body : String)
  | exn (detail : String)
deriving DecidableEq

/-- `HTTPStatus.CREATED`. -/
def HTTPStatusCREATED : Nat := 201

/-- Whether the outcome is the definitive success response HTTP 201. -/
def isCreated : HttpOutcome → Bool
  | HttpOutcome.response status _ => status == HTTPStatusCREATED
  | HttpOutcome.exn _ => false

/-- Python truthiness of `register_file`'s return value at the driver's
`if register_file(...)`: `True` is truthy; `False` and the implicit `None`
are falsy. -/
def truthy : Option Bool → Bool
  | some b => b
  | none => false

/-! ### `register_file` -/

/-- `REGISTER_FILE_ENDPOINT.format(host)`. -/
def registerFileEndpoint (host : String) : String :=
  "https://" ++ host ++ "/api/v3/oneprovider/data/register"

/-- The single `requests.post` call that one `register_file` invocation
issues: endpoint URL, payload built from the normalized path, token header
and `verify=(not args.disable_cert_verification)`. -/
def register_request (cfg : RunConfig) (storage_file_id : String)
    (size : Nat) (checksum : String) : Request :=
  let sfi := strip_server_url storage_file_id
  { url := registerFileEndpoint cfg.host,
    payload :=
      { spaceId := cfg.space_id,
        storageId := cfg.storage_id,
        storageFileId := sfi,
        destinationPath := sfi,
        size := size,
        mode := cfg.mode,
        xattrs := [("checksum", checksum)],
        autoDetectAttributes := !cfg.disable_auto_detection },
    token := cfg.token,
    verify := !cfg.disable_cert_verification }

/-- The `logging.error` line of the non-201 branch of `register_file`. -/
def registrationFailedStatusMsg (sfi : String) (status : Nat)
    (body : String) : String :=
  "Registration of " ++ sfi ++ " failed with HTTP status " ++
    toString status ++ ".\nResponse: " ++ body

/-- The `logging.error` line of the exception branch of `register_file`. -/
def registrationFailedExnMsg (sfi : String) (detail : String) : String :=
  "Registration of " ++ sfi ++ " failed due to " ++ detail

/-- What one `register_file` call produced: its Python return value
(`some true` for the 201 branch, `some false` for the other-status branch,
`none` for the exception branch, which has no `return` statement), the
`requests.post` calls it issued, and the error lines it logged. -/
structure RegOutput where
  result : Option Bool
  posts : List Request
  errorLogs : List String
deriving DecidableEq

/-- `upload.py` line 111 `register_file`: normalize the identifier, build
the payload, issue exactly one POST whose outcome is `outcome`, and branch
on it exactly as the source does. -/
def register_file (cfg : RunConfig) (storage_file_id : String) (size : Nat)
    (checksum : String) (outcome : HttpOutcome) : RegOutput :=
  let sfi := strip_server_url storage_file_id
  let req := register_request cfg storage_file_id size checksum
  match outcome with
  | HttpOutcome.response status body =>
    if status = HTTPStatusCREATED then
      { result := some true, posts := [req], errorLogs := [] }
    else
      { result := some false, posts := [req],
        errorLogs := [registrationFailedStatusMsg sfi status body] }
  | HttpOutcome.exn detail =>
    { result := none, posts := [req],
      errorLogs := [registrationFailedExnMsg sfi detail] }

/-! ### Collection resolution -/

/-- The loop of `get_files_and_json_indexes_urls` over
`metadata.index_files`: `.json` URLs are appended to `index_urls`; for a
`.txt` URL the source executes `txt_urls.append(txt_urls)`, a
self-referential append that never stores the URL, so the `.txt` branch is
modelled by the count of entries it recognized; other extensions take no
branch.  Returns `(index_urls, txt branch count)`. -/
def classify_index_files (index_files : List String) : List String × Nat :=
  index_files.foldl
    (fun acc index_url =>
      let ext := extOf index_url
      if ext = ".json" then (acc.1 ++ [index_url], acc.2)
      else if ext = ".txt" then (acc.1, acc.2 + 1)
      else acc)
    ([], 0)

/-- `upload.py` line 150, applied to the already-fetched manifest: return
the direct file descriptors and the `.json` index URLs. -/
def get_files_and_json_indexes_urls (collection : Collection) :
    List FileSpec × List String :=
  (collection.files, (classify_index_files collection.index_files).1)

/-! ### `register_files_from_index` -/

/-- Accumulated state of the loop in `register_files_from_index`:
`size_sum` and `count` are its local counters, `progress` records the
0-based positions at which the progress `print` fired, `posts` the POSTs
issued so far, and `k` the index of the next registration POST of the run
(position on the `net` oracle). -/
structure IndexRun where
  size_sum : Nat
  count : Nat
  progress : List Nat
  posts : List Request
  k : Nat
deriving DecidableEq

/-- The guard `args.logging_freq and i % args.logging_freq == 0 and i > 0`:
`None` and `0` are falsy. -/
def loggingActive (freq : Option Nat) (i : Nat) : Bool :=
  match freq with
  | none => false
  | some f => f ≠ 0 && i % f == 0 && 0 < i

/-- One iteration of the `enumerate(file_specs)` loop at position `i`:
possibly print a progress notice, call `register_file` on the `uri` entry
with the next network outcome, and on a truthy result add the size and
bump the count. -/
def indexStep (cfg : RunConfig) (net : Nat → HttpOutcome) (st : IndexRun)
    (i : Nat) (fs : FileSpec) : IndexRun :=
  let progress :=
    if loggingActive cfg.logging_freq i then st.progress ++ [i]
    else st.progress
  let r := register_file cfg fs.uri fs.size fs.checksum (net st.k)
  if truthy r.result then
    { size_sum := st.size_sum + fs.size, count := st.count + 1,
      progress := progress, posts := st.posts ++ r.posts, k := st.k + 1 }
  else
    { st with
      progress := progress, posts := st.posts ++ r.posts, k := st.k + 1 }

/-- The `for i, file_spec in enumerate(file_specs)` loop, `i` starting at
the given position. -/
def registerFilesLoop (cfg : RunConfig) (net : Nat → HttpOutcome) :
    List FileSpec → Nat → IndexRun → IndexRun
  | [], _, st => st
  | fs :: rest, i, st =>
    registerFilesLoop cfg net rest (i + 1) (indexStep cfg net st i fs)

/-- `upload.py` line 164 `register_files_from_index`, with the fetched
index document supplied by the `docs` oracle: start from zeroed local
counters at network position `k` and run the enumerate loop from 0. -/
def register_files_from_index (cfg : RunConfig) (net : Nat → HttpOutcome)
    (docs : String → List FileSpec) (index_url : String) (k : Nat) :
    IndexRun :=
  let file_specs := docs index_url
  registerFilesLoop cfg net file_specs 0
    { size_sum := 0, count := 0, progress := [], posts := [], k := k }

/-! ### The main driver loop -/

/-- Cross-run driver state: the global `total_size` and `total_count`
accumulators, plus traces of the POSTs issued, the progress positions
printed, the index URLs fetched, and the network position `k`. -/
structure RunState where
  total_size : Nat
  total_count : Nat
  posts : List Request
  progress : List Nat
  fetched_indexes : List String
  k : Nat
deriving DecidableEq

/-- One iteration of the direct-file loop (`upload.py` lines 188-191):
register `file_spec['uri_root']` and on a truthy result add the size to
`total_size` and bump `total_count`. -/
def driverStep (cfg : RunConfig) (net : Nat → HttpOutcome) (st : RunState)
    (fs : FileSpec) : RunState :=
  let r := register_file cfg fs.uri fs.size fs.checksum (net st.k)
  let st1 := { st with posts := st.posts ++ r.posts, k := st.k + 1 }
  if truthy r.result then
    { st1 with
      total_size := st1.total_size + fs.size,
      total_count := st1.total_count + 1 }
  else st1

/-- One iteration of the index loop (`upload.py` lines 193-197): fetch the
index document, register its files, and add the returned `size_sum` and
`count` to the global totals. -/
def indexUrlStep (cfg : RunConfig) (net : Nat → HttpOutcome)
    (docs : String → List FileSpec) (st : RunState) (index_url : String) :
    RunState :=
  let r := register_files_from_index cfg net docs index_url st.k
  { total_size := st.total_size + r.size_sum,
    total_count := st.total_count + r.count,
    posts := st.posts ++ r.posts,
    progress := st.progress ++ r.progress,
    fetched_indexes := st.fetched_indexes ++ [index_url],
    k := r.k }

/-- Processing of one collection (`upload.py` lines 181-197), applied to
the already-fetched root manifest: resolve it, run the direct-file loop,
then the index loop. -/
def processCollection (cfg : RunConfig) (net : Nat → HttpOutcome)
    (docs : String → List FileSpec) (st : RunState)
    (collection : Collection) : RunState :=
  let (file_specs, index_urls) := get_files_and_json_indexes_urls collection
  let st1 := file_specs.foldl (driverStep cfg net) st
  index_urls.foldl (indexUrlStep cfg net docs) st1

/-- The whole run: totals start at zero and every collection manifest is
processed in order.  Each element of `collections` is the parsed root
manifest fetched from the corresponding collection URL. -/
def runMain (cfg : RunConfig) (net : Nat → HttpOutcome)
    (docs : String → List FileSpec) (collections : List Collection) :
    RunState :=
  collections.foldl (processCollection cfg net docs)
    { total_size := 0, total_count := 0, posts := [], progress := [],
      fetched_indexes := [], k := 0 }

/-! ### Aggregation helper and concrete fixtures -/

/-- Successful-registration totals over a block of consecutive POSTs:
`(createdTotals net k specs).1` counts the descriptors in `specs` whose
POST (numbered from `k`) returns HTTP 201, and `.2` sums their sizes. -/
def createdTotals (net : Nat → HttpOutcome) : Nat → List FileSpec → Nat × Nat
  | _, [] => (0, 0)
  | k, fs :: rest =>
    let t := createdTotals net (k + 1) rest
    if isCreated (net k) then (t.1 + 1, t.2 + fs.size) else t

/-- A concrete configuration with logging frequency 2, used by concrete
instances. -/
def cfgW : RunConfig :=
  { host := "oneprovider.example.org", space_id := "space1",
    storage_id := "storage1", token := "token1", mode := "0664",
    disable_auto_detection := false, logging_freq := some 2,
    disable_cert_verification := false }

/-- A network oracle on which every POST returns HTTP 201 Created. -/
def netCreated : Nat → HttpOutcome := fun _ => HttpOutcome.response 201 ""

/-- A network oracle on which the first POST of the run returns HTTP 500
and every later POST returns HTTP 201. -/
def net500First : Nat → HttpOutcome := fun k =>
  if k = 0 then HttpOutcome.response 500 "internal error"
  else HttpOutcome.response 201 ""

/-- The initial driver state (totals zeroed, nothing issued yet). -/
def stInit : RunState :=
  { total_size := 0, total_count := 0, posts := [], progress := [],
    fetched_indexes := [], k := 0 }

/-- Concrete index-document URL with a `.json` extension. -/
def iuW : String := "https://opendata.example.org/record/1/file_index.json"

/-- Concrete index-document URL with a `.txt` extension. -/
def txtW : String := "https://opendata.example.org/record/1/file_index.txt"

/-- Five concrete descriptors, as an index document. -/
def specs5W : List FileSpec :=
  [⟨"/eos/opendata/f0", 1, "adler32:aa"⟩, ⟨"/eos/opendata/f1", 2, "adler32:ab"⟩,
   ⟨"/eos/opendata/f2", 4, "adler32:ac"⟩, ⟨"/eos/opendata/f3", 8, "adler32:ad"⟩,
   ⟨"/eos/opendata/f4", 16, "adler32:ae"⟩]

/-- Document oracle serving `specs5W` at `iuW` and nothing elsewhere. -/
def docs5W : String → List FileSpec := fun v =>
  if v = iuW then specs5W else []

/-- Three concrete direct-file descriptors. -/
def fsA : FileSpec := ⟨"/eos/opendata/a", 100, "adler32:ba"⟩

/-- Second concrete descriptor. -/
def fsB : FileSpec := ⟨"/eos/opendata/b", 200, "adler32:bb"⟩

/-- Third concrete descriptor. -/
def fsC : FileSpec := ⟨"/eos/opendata/c", 400, "adler32:bc"⟩

/-- Two concrete index-document descriptors. -/
def fsD : FileSpec := ⟨"/eos/opendata/d", 800, "adler32:bd"⟩

/-- Fifth concrete descriptor. -/
def fsE : FileSpec := ⟨"/eos/opendata/e", 1600, "adler32:be"⟩

/-- Document oracle for the five-descriptor run: the `.json` index URL
serves the two-descriptor document. -/
def docsRunW : String → List FileSpec := fun v =>
  if v = iuW then [fsD, fsE] else []

/-- A collection manifest with three direct descriptors and one `.json`
index URL. -/
def colW : Collection := ⟨[fsA, fsB, fsC], [iuW]⟩

/-- A collection manifest whose index list holds one `.json` and one
`.txt` entry. -/
def colTxtW : Collection := ⟨[fsA], [iuW, txtW]⟩

/-- Document oracle differing from `docsRunW` exactly at the `.txt` URL. -/
def docsTxtAltW : String → List FileSpec := fun v =>
  if v = txtW then [fsE] else docsRunW v

/-! ### Helper lemmas -/

/-- The driver's truthiness test on `register_file`'s return value is
exactly "the POST returned HTTP 201". -/
lemma truthy_register (cfg : RunConfig) (u : String) (s : Nat) (c : String)
    (o : HttpOutcome) :
    truthy (register_file cfg u s c o).result = isCreated o := by
  cases o with
  | response status body =>
    by_cases h : status = HTTPStatusCREATED <;>
      simp [register_file, truthy, isCreated, h]
  | exn detail => simp [register_file, truthy, isCreated]

/-- Every `register_file` invocation issues exactly the one POST built
from its arguments. -/
lemma register_posts (cfg : RunConfig) (u : String) (s : Nat) (c : String)
    (o : HttpOutcome) :
    (register_file cfg u s c o).posts = [register_request cfg u s c] := by
  cases o with
  | response status body =>
    by_cases h : status = HTTPStatusCREATED <;> simp [register_file, h]
  | exn detail => simp [register_file]

/-- Field-level description of one direct-file driver iteration. -/
lemma driverStep_eq (cfg : RunConfig) (net : Nat → HttpOutcome)
    (st : RunState) (fs : FileSpec) :
    driverStep cfg net st fs =
      { total_size := st.total_size + (if isCreated (net st.k) then fs.size else 0),
        total_count := st.total_count + (if isCreated (net st.k) then 1 else 0),
        posts := st.posts ++ [register_request cfg fs.uri fs.size fs.checksum],
        progress := st.progress,
        fetched_indexes := st.fetched_indexes,
        k := st.k + 1 } := by
  cases h : isCreated (net st.k) <;>
    simp [driverStep, truthy_register, register_posts, h]

/-- Field-level description of one index-loop iteration. -/
lemma indexStep_eq (cfg : RunConfig) (net : Nat → HttpOutcome)
    (st : IndexRun) (i : Nat) (fs : FileSpec) :
    indexStep cfg net st i fs =
      { size_sum := st.size_sum + (if isCreated (net st.k) then fs.size else 0),
        count := st.count + (if isCreated (net st.k) then 1 else 0),
        progress := st.progress ++
          (if loggingActive cfg.logging_freq i then [i] else []),
        posts := st.posts ++ [register_request cfg fs.uri fs.size fs.checksum],
        k := st.k + 1 } := by
  cases h : isCreated (net st.k) <;>
    cases h2 : loggingActive cfg.logging_freq i <;>
      simp [indexStep, truthy_register, register_posts, h, h2]

/-- The index loop advances the network position by one per descriptor. -/
lemma registerFilesLoop_k (cfg : RunConfig) (net : Nat → HttpOutcome) :
    ∀ (specs : List FileSpec) (i : Nat) (st : IndexRun),
      (registerFilesLoop cfg net specs i st).k = st.k + specs.length := by
  intro specs
  induction specs with
  | nil => intro i st; simp [registerFilesLoop]
  | cons fs rest ih =>
    intro i st
    rw [registerFilesLoop, ih, indexStep_eq]
    simp
    omega

/-- The index loop adds to `size_sum` exactly the sizes of the descriptors
whose POST returned 201. -/
lemma registerFilesLoop_size (cfg : RunConfig) (net : Nat → HttpOutcome) :
    ∀ (specs : List FileSpec) (i : Nat) (st : IndexRun),
      (registerFilesLoop cfg net specs i st).size_sum =
        st.size_sum + (createdTotals net st.k specs).2 := by
  intro specs
  induction specs with
  | nil => intro i st; simp [registerFilesLoop, createdTotals]
  | cons fs rest ih =>
    intro i st
    rw [registerFilesLoop, ih, indexStep_eq, createdTotals]
    simp only
    cases h : isCreated (net st.k) <;> simp [h]
    all_goals omega

/-- The index loop bumps `count` exactly once per 201 response. -/
lemma registerFilesLoop_count (cfg : RunConfig) (net : Nat → HttpOutcome) :
    ∀ (specs : List FileSpec) (i : Nat) (st : IndexRun),
      (registerFilesLoop cfg net specs i st).count =
        st.count + (createdTotals net st.k specs).1 := by
  intro specs
  induction specs with
  | nil => intro i st; simp [registerFilesLoop, createdTotals]
  | cons fs rest ih =>
    intro i st
    rw [registerFilesLoop, ih, indexStep_eq, createdTotals]
    simp only
    cases h : isCreated (net st.k) <;> simp [h]
    all_goals omega

/-- The index loop issues one POST per descriptor, in order. -/
lemma registerFilesLoop_posts (cfg : RunConfig) (net : Nat → HttpOutcome) :
    ∀ (specs : List FileSpec) (i : Nat) (st : IndexRun),
      (registerFilesLoop cfg net specs i st).posts =
        st.posts ++ specs.map
          (fun fs => register_request cfg fs.uri fs.size fs.checksum) := by
  intro specs
  induction specs with
  | nil => intro i st; simp [registerFilesLoop]
  | cons fs rest ih =>
    intro i st
    rw [registerFilesLoop, ih, indexStep_eq]
    simp

/-- The index loop prints a progress notice exactly at the positions of
its enumeration where the logging guard holds. -/
lemma registerFilesLoop_progress (cfg : RunConfig) (net : Nat → HttpOutcome) :
    ∀ (specs : List FileSpec) (i : Nat) (st : IndexRun),
      (registerFilesLoop cfg net specs i st).progress =
        st.progress ++
          ((List.range specs.length).map (fun j => j + i)).filter
            (fun j => loggingActive cfg.logging_freq j) := by
  intro specs
  induction specs with
  | nil => intro i st; simp [registerFilesLoop]
  | cons fs rest ih =>
    intro i st
    have hrange : (List.range (rest.length + 1)).map (fun j => j + i) =
        i :: (List.range rest.length).map (fun j => j + (i + 1)) := by
      rw [List.range_succ_eq_map]
      simp only [List.map_cons, Nat.zero_add, List.map_map]
      refine congrArg _ ?_
      apply List.map_congr_left
      intro j _
      simp only [Function.comp_apply]
      omega
    rw [registerFilesLoop, ih, indexStep_eq]
    simp only [List.length_cons, hrange, List.filter_cons]
    cases h2 : loggingActive cfg.logging_freq i <;> simp [h2]

/-- Totals over the direct-file loop: counts and sizes of the 201
registrations only; all other fields evolve as traces. -/
lemma driverFold_eq (cfg : RunConfig) (net : Nat → HttpOutcome) :
    ∀ (file_specs : List FileSpec) (st : RunState),
      file_specs.foldl (driverStep cfg net) st =
        { total_size := st.total_size + (createdTotals net st.k file_specs).2,
          total_count := st.total_count + (createdTotals net st.k file_specs).1,
          posts := st.posts ++ file_specs.map
            (fun fs => register_request cfg fs.uri fs.size fs.checksum),
          progress := st.progress,
          fetched_indexes := st.fetched_indexes,
          k := st.k + file_specs.length } := by
  intro file_specs
  induction file_specs with
  | nil => intro st; simp [createdTotals]
  | cons fs rest ih =>
    intro st
    rw [List.foldl_cons, ih, driverStep_eq, createdTotals]
    simp only
    cases h : isCreated (net st.k) <;> simp [h]
    all_goals omega

/-- Field-level description of one index-URL iteration of the driver. -/
lemma indexUrlStep_eq (cfg : RunConfig) (net : Nat → HttpOutcome)
    (docs : String → List FileSpec) (st : RunState) (index_url : String) :
    indexUrlStep cfg net docs st index_url =
      { total_size := st.total_size + (createdTotals net st.k (docs index_url)).2,
        total_count := st.total_count + (createdTotals net st.k (docs index_url)).1,
        posts := st.posts ++ (docs index_url).map
          (fun fs => register_request cfg fs.uri fs.size fs.checksum),
        progress := st.progress ++
          ((List.range (docs index_url).length).map (fun j => j + 0)).filter
            (fun j => loggingActive cfg.logging_freq j),
        fetched_indexes := st.fetched_indexes ++ [index_url],
        k := st.k + (docs index_url).length } := by
  simp only [indexUrlStep, register_files_from_index]
  rw [registerFilesLoop_size, registerFilesLoop_count, registerFilesLoop_posts,
    registerFilesLoop_progress, registerFilesLoop_k]
  simp

/-- Processing index URLs only appends them, in order, to the fetched
trace. -/
lemma indexFold_fetched (cfg : RunConfig) (net : Nat → HttpOutcome)
    (docs : String → List FileSpec) :
    ∀ (urls : List String) (st : RunState),
      (urls.foldl (indexUrlStep cfg net docs) st).fetched_indexes =
        st.fetched_indexes ++ urls := by
  intro urls
  induction urls with
  | nil => intro st; simp
  | cons u rest ih =>
    intro st
    rw [List.foldl_cons, ih, indexUrlStep_eq]
    simp

/-- The totals never decrease across an index-URL iteration. -/
lemma indexFold_mono (cfg : RunConfig) (net : Nat → HttpOutcome)
    (docs : String → List FileSpec) :
    ∀ (urls : List String) (st : RunState),
      st.total_count ≤ (urls.foldl (indexUrlStep cfg net docs) st).total_count ∧
      st.total_size ≤ (urls.foldl (indexUrlStep cfg net docs) st).total_size := by
  intro urls
  induction urls with
  | nil => intro st; exact ⟨Nat.le_refl _, Nat.le_refl _⟩
  | cons u rest ih =>
    intro st
    rw [List.foldl_cons]
    refine ⟨Nat.le_trans ?_ (ih _).1, Nat.le_trans ?_ (ih _).2⟩ <;>
      rw [indexUrlStep_eq] <;> simp

/-- An index-URL iteration reads the document oracle only at its URL. -/
lemma indexUrlStep_congr (cfg : RunConfig) (net : Nat → HttpOutcome)
    (docs docs' : String → List FileSpec) (st : RunState) (index_url : String)
    (h : docs index_url = docs' index_url) :
    indexUrlStep cfg net docs st index_url =
      indexUrlStep cfg net docs' st index_url := by
  simp only [indexUrlStep, register_files_from_index, h]

/-- The index-URL fold reads the document oracle only at its members. -/
lemma indexFold_congr (cfg : RunConfig) (net : Nat → HttpOutcome)
    (docs docs' : String → List FileSpec) :
    ∀ (urls : List String) (st : RunState),
      (∀ v ∈ urls, docs v = docs' v) →
      urls.foldl (indexUrlStep cfg net docs) st =
        urls.foldl (indexUrlStep cfg net docs') st := by
  intro urls
  induction urls with
  | nil => intro st _; rfl
  | cons u rest ih =>
    intro st h
    rw [List.foldl_cons, List.foldl_cons,
      indexUrlStep_congr cfg net docs docs' st u (h u (by simp))]
    exact ih _ (fun v hv => h v (by simp [hv]))

/-- The classifier loop of `get_files_and_json_indexes_urls`, with a
generalized accumulator: it filters the `.json` URLs in order and counts
the `.txt` entries. -/
lemma classify_aux :
    ∀ (l : List String) (acc : List String × Nat),
      l.foldl
        (fun acc index_url =>
          let ext := extOf index_url
          if ext = ".json" then (acc.1 ++ [index_url], acc.2)
          else if ext = ".txt" then (acc.1, acc.2 + 1)
          else acc)
        acc =
      (acc.1 ++ l.filter (fun u => extOf u == ".json"),
       acc.2 + (l.filter (fun u => extOf u == ".txt")).length) := by
  intro l
  induction l with
  | nil => intro acc; simp
  | cons u rest ih =>
    intro acc
    rw [List.foldl_cons, ih]
    by_cases h1 : extOf u = ".json"
    · simp [h1]
    · by_cases h2 : extOf u = ".txt" <;> simp [h1, h2]
      omega

/-- `classify_index_files` filters the `.json` URLs in order and counts
the `.txt` entries. -/
lemma classify_spec (l : List String) :
    classify_index_files l =
      (l.filter (fun u => extOf u == ".json"),
       (l.filter (fun u => extOf u == ".txt")).length) := by
  rw [classify_index_files, classify_aux]
  simp

/-- When every POST of a block returns 201, its totals are the full count
and the full size sum. -/
lemma createdTotals_all (net : Nat → HttpOutcome) :
    ∀ (specs : List FileSpec) (k : Nat),
      (∀ j, j < specs.length → isCreated (net (k + j)) = true) →
      createdTotals net k specs =
        (specs.length, (specs.map FileSpec.size).sum) := by
  intro specs
  induction specs with
  | nil => intro k _; simp [createdTotals]
  | cons fs rest ih =>
    intro k h
    have h0 : isCreated (net k) = true := by
      have := h 0 (by simp)
      simpa using this
    have hrest : ∀ j, j < rest.length → isCreated (net (k + 1 + j)) = true := by
      intro j hj
      have := h (j + 1) (by simp; omega)
      have harith : k + (j + 1) = k + 1 + j := by omega
      rwa [harith] at this
    rw [createdTotals]
    simp [h0, ih (k + 1) hrest]
    omega

/-- `processCollection` is the direct-file fold followed by the index-URL
fold over the surfaced `.json` URLs. -/
lemma processCollection_eq (cfg : RunConfig) (net : Nat → HttpOutcome)
    (docs : String → List FileSpec) (st : RunState) (col : Collection) :
    processCollection cfg net docs st col =
      ((classify_index_files col.index_files).1).foldl
        (indexUrlStep cfg net docs)
        (col.files.foldl (driverStep cfg net) st) := by
  simp only [processCollection, get_files_and_json_indexes_urls]

/-- A collection's processing fetches exactly the surfaced `.json` index
URLs, appended in order to the fetch trace. -/
lemma processCollection_fetched (cfg : RunConfig) (net : Nat → HttpOutcome)
    (docs : String → List FileSpec) (st : RunState) (col : Collection) :
    (processCollection cfg net docs st col).fetched_indexes =
      st.fetched_indexes ++ (classify_index_files col.index_files).1 := by
  rw [processCollection_eq, indexFold_fetched, driverFold_eq]

/-- The totals never decrease across a collection. -/
lemma processCollection_mono (cfg : RunConfig) (net : Nat → HttpOutcome)
    (docs : String → List FileSpec) (st : RunState) (col : Collection) :
    st.total_count ≤ (processCollection cfg net docs st col).total_count ∧
    st.total_size ≤ (processCollection cfg net docs st col).total_size := by
  rw [processCollection_eq]
  have hfold := indexFold_mono cfg net docs
    ((classify_index_files col.index_files).1)
    (col.files.foldl (driverStep cfg net) st)
  constructor
  · refine Nat.le_trans ?_ hfold.1
    rw [driverFold_eq]
    simp
  · refine Nat.le_trans ?_ hfold.2
    rw [driverFold_eq]
    simp

/-- A collection's processing reads the document oracle only at the
surfaced `.json` index URLs. -/
lemma processCollection_congr (cfg : RunConfig) (net : Nat → HttpOutcome)
    (docs docs' : String → List FileSpec) (st : RunState) (col : Collection)
    (h : ∀ v ∈ (classify_index_files col.index_files).1, docs v = docs' v) :
    processCollection cfg net docs st col =
      processCollection cfg net docs' st col := by
  rw [processCollection_eq, processCollection_eq]
  exact indexFold_congr cfg net docs docs' _ _ h

/-- The progress guard holds exactly at the positive multiples of a
configured non-zero frequency. -/
lemma loggingActive_iff (freq : Option Nat) (i : Nat) :
    loggingActive freq i = true ↔
      0 < i ∧ ∃ f, freq = some f ∧ 0 < f ∧ f ∣ i := by
  cases freq with
  | none => simp [loggingActive]
  | some f =>
    simp only [loggingActive, Bool.and_eq_true, decide_eq_true_eq,
      beq_iff_eq, Option.some.injEq]
    constructor
    · rintro ⟨⟨hf, hmod⟩, hi⟩
      exact ⟨hi, f, rfl, Nat.pos_of_ne_zero hf,
        Nat.dvd_of_mod_eq_zero hmod⟩
    · rintro ⟨hi, f', hf', hfpos, hdvd⟩
      subst hf'
      obtain ⟨m, rfl⟩ := hdvd
      exact ⟨⟨Nat.pos_iff_ne_zero.mp hfpos, Nat.mul_mod_right f m⟩, hi⟩

/-! ### Claim theorems -/

/-- Claim C1: the run totals only ever increase, and they change only for
registrations that receive HTTP 201 Created: the registrar returns success
exactly for a 201 outcome; a direct-file driver iteration and an
index-loop iteration add exactly 1 to the count and exactly the
descriptor's size to the bytes on a 201 outcome and leave both unchanged
on any other outcome; and processing a whole collection never decreases
either total. -/
theorem claim_C1_totals (cfg : RunConfig) (net : Nat → HttpOutcome)
    (docs : String → List FileSpec) (st : RunState) (ist : IndexRun)
    (fs : FileSpec) (i : Nat) (u : String) (s : Nat) (c : String)
    (o : HttpOutcome) (col : Collection) :
    truthy (register_file cfg u s c o).result = isCreated o
    ∧ (driverStep cfg net st fs).total_count
        = st.total_count + (if isCreated (net st.k) then 1 else 0)
    ∧ (driverStep cfg net st fs).total_size
        = st.total_size + (if isCreated (net st.k) then fs.size else 0)
    ∧ (indexStep cfg net ist i fs).count
        = ist.count + (if isCreated (net ist.k) then 1 else 0)
    ∧ (indexStep cfg net ist i fs).size_sum
        = ist.size_sum + (if isCreated (net ist.k) then fs.size else 0)
    ∧ st.total_count ≤ (processCollection cfg net docs st col).total_count
    ∧ st.total_size ≤ (processCollection cfg net docs st col).total_size := by
  refine ⟨truthy_register cfg u s c o, ?_, ?_, ?_, ?_,
    (processCollection_mono cfg net docs st col).1,
    (processCollection_mono cfg net docs st col).2⟩
  · rw [driverStep_eq]
  · rw [driverStep_eq]
  · rw [indexStep_eq]
  · rw [indexStep_eq]

/-- Claim C2: if a location identifier parses as a URL with a non-empty
scheme, `strip_server_url` returns only the path component of the parse;
for an identifier whose parse has no scheme, it returns the input
unchanged. -/
theorem claim_C2_strip (s : String) :
    ((urlparse s).scheme ≠ "" → strip_server_url s = (urlparse s).path)
    ∧ ((urlparse s).scheme = "" → strip_server_url s = s) := by
  constructor
  · intro h
    simp [strip_server_url, h]
  · intro h
    simp [strip_server_url, h]

/-- Claim C2 witness: the concrete URL keeps only its path, and the
concrete bare path is returned unchanged. -/
theorem claim_C2_strip_witness :
    (urlparse "https://eospublichttp.cern.ch/eos/opendata/x.root").scheme ≠ ""
    ∧ strip_server_url "https://eospublichttp.cern.ch/eos/opendata/x.root"
        = "/eos/opendata/x.root"
    ∧ (urlparse "/eos/opendata/x.root").scheme = ""
    ∧ strip_server_url "/eos/opendata/x.root" = "/eos/opendata/x.root" := by
  refine ⟨by decide, ?_, by decide, ?_⟩
  · exact ((claim_C2_strip _).1 (by decide)).trans (by decide)
  · exact (claim_C2_strip _).2 (by decide)

/-- Claim C3 counterexample: on a transport-level exception the registrar
does not return the explicit value `False`; it falls off the `except`
block, i.e. returns the implicit `None`. -/
theorem claim_C3_counterexample :
    ¬ ((register_file cfgW "https://host.example.org/eos/f" 5 "adler32:01"
          (HttpOutcome.exn "connection refused")).result = some false) := by
  intro h
  simp [register_file] at h

/-- Claim C3 amended: on a transport-level exception the registrar records
the failure with the exception detail and returns the implicit `None`,
which the driver's truthiness test treats as failure. -/
theorem claim_C3_amended (cfg : RunConfig) (u : String) (s : Nat) (c : String)
    (detail : String) :
    (register_file cfg u s c (HttpOutcome.exn detail)).result = none
    ∧ truthy (register_file cfg u s c (HttpOutcome.exn detail)).result = false
    ∧ (register_file cfg u s c (HttpOutcome.exn detail)).errorLogs
        = [registrationFailedExnMsg (strip_server_url u) detail] := by
  exact ⟨rfl, rfl, rfl⟩

/-- Claim C4: a registration receiving a non-201 response returns the
explicit failure value `False` (no exception escapes), its driver
iteration leaves both totals unchanged, and in a two-descriptor batch the
second descriptor is still posted and still registered according to its
own outcome. -/
theorem claim_C4_non201 (cfg : RunConfig) (net : Nat → HttpOutcome)
    (st : RunState) (fs fs2 : FileSpec) (status : Nat) (body : String)
    (hst : status ≠ HTTPStatusCREATED)
    (hnet : net st.k = HttpOutcome.response status body) :
    (register_file cfg fs.uri fs.size fs.checksum
        (HttpOutcome.response status body)).result = some false
    ∧ (driverStep cfg net st fs).total_count = st.total_count
    ∧ (driverStep cfg net st fs).total_size = st.total_size
    ∧ ([fs, fs2].foldl (driverStep cfg net) st).posts
        = st.posts ++ [register_request cfg fs.uri fs.size fs.checksum,
                       register_request cfg fs2.uri fs2.size fs2.checksum]
    ∧ ([fs, fs2].foldl (driverStep cfg net) st).total_count
        = st.total_count + (if isCreated (net (st.k + 1)) then 1 else 0) := by
  have hnc : isCreated (net st.k) = false := by
    rw [hnet]
    simp [isCreated, hst]
  refine ⟨?_, ?_, ?_, ?_, ?_⟩
  · simp [register_file, hst]
  · rw [driverStep_eq, hnc]
    simp
  · rw [driverStep_eq, hnc]
    simp
  · show (driverStep cfg net (driverStep cfg net st fs) fs2).posts = _
    rw [driverStep_eq, driverStep_eq]
    simp
  · show (driverStep cfg net (driverStep cfg net st fs) fs2).total_count = _
    rw [driverStep_eq, driverStep_eq]
    simp [hnc]

/-- Claim C4 witness: with HTTP 500 on the first POST and HTTP 201 on the
second, the first registration returns `False`, totals are untouched by
it, both descriptors are posted, and the second registration lands. -/
theorem claim_C4_non201_witness :
    (500 ≠ HTTPStatusCREATED)
    ∧ net500First stInit.k = HttpOutcome.response 500 "internal error"
    ∧ (register_file cfgW fsA.uri fsA.size fsA.checksum
        (HttpOutcome.response 500 "internal error")).result = some false
    ∧ (driverStep cfgW net500First stInit fsA).total_count = stInit.total_count
    ∧ (driverStep cfgW net500First stInit fsA).total_size = stInit.total_size
    ∧ ([fsA, fsB].foldl (driverStep cfgW net500First) stInit).posts
        = stInit.posts ++
            [register_request cfgW fsA.uri fsA.size fsA.checksum,
             register_request cfgW fsB.uri fsB.size fsB.checksum]
    ∧ ([fsA, fsB].foldl (driverStep cfgW net500First) stInit).total_count
        = stInit.total_count +
            (if isCreated (net500First (stInit.k + 1)) then 1 else 0) := by
  have h := claim_C4_non201 cfgW net500First stInit fsA fsB 500
    "internal error" (by decide) (by decide)
  exact ⟨by decide, by decide, h.1, h.2.1, h.2.2.1, h.2.2.2.1, h.2.2.2.2⟩

/-- Claim C5: the body of every registration POST carries the space id,
the storage id, the normalized path as both the storage-file-id and the
destination-path field (the two fields are equal), the descriptor's size,
the configured POSIX mode, the checksum as an extended attribute, and an
auto-detection flag equal to the negation of the disable-auto-detection
option. -/
theorem claim_C5_payload (cfg : RunConfig) (u : String) (s : Nat)
    (c : String) (o : HttpOutcome) :
    (register_file cfg u s c o).posts = [register_request cfg u s c]
    ∧ (register_request cfg u s c).payload =
        { spaceId := cfg.space_id, storageId := cfg.storage_id,
          storageFileId := strip_server_url u,
          destinationPath := strip_server_url u,
          size := s, mode := cfg.mode,
          xattrs := [("checksum", c)],
          autoDetectAttributes := !cfg.disable_auto_detection }
    ∧ (register_request cfg u s c).payload.destinationPath
        = (register_request cfg u s c).payload.storageFileId := by
  exact ⟨register_posts cfg u s c o, rfl, rfl⟩

/-- Claim C6: while iterating an index document, a progress notice is
emitted exactly at the entries whose 0-based position is a positive
multiple of a configured non-zero logging interval — never at position 0
and never when no interval is configured; concretely, with interval 2 and
5 entries the notices occur exactly at positions 2 and 4. -/
theorem claim_C6_progress (cfg : RunConfig) (net : Nat → HttpOutcome)
    (docs : String → List FileSpec) (iu : String) (k : Nat) (i : Nat) :
    (i ∈ (register_files_from_index cfg net docs iu k).progress ↔
      i < (docs iu).length ∧ 0 < i ∧
        ∃ f, cfg.logging_freq = some f ∧ 0 < f ∧ f ∣ i)
    ∧ (register_files_from_index cfgW netCreated docs5W iuW 0).progress
        = [2, 4] := by
  constructor
  · simp only [register_files_from_index]
    rw [registerFilesLoop_progress]
    simp [List.mem_filter, List.mem_range, loggingActive_iff, and_assoc]
  · simp only [register_files_from_index]
    rw [registerFilesLoop_progress]
    decide

/-- Claim C7: a `.txt` index entry is recognized by the collection
resolver (its branch runs) but is never surfaced in the returned index-URL
list, never fetched by the driver, and the run's outcome is independent of
the document behind it. -/
theorem claim_C7_txt (col : Collection) (u : String) (cfg : RunConfig)
    (net : Nat → HttpOutcome) (docs docs' : String → List FileSpec)
    (st : RunState)
    (hmem : u ∈ col.index_files) (hext : extOf u = ".txt")
    (hfetched : u ∉ st.fetched_indexes)
    (hagree : ∀ v, v ≠ u → docs v = docs' v) :
    0 < (classify_index_files col.index_files).2
    ∧ u ∉ (get_files_and_json_indexes_urls col).2
    ∧ u ∉ (processCollection cfg net docs st col).fetched_indexes
    ∧ processCollection cfg net docs st col
        = processCollection cfg net docs' st col := by
  have hjson : ∀ v ∈ (classify_index_files col.index_files).1,
      extOf v = ".json" := by
    intro v hv
    rw [classify_spec] at hv
    simpa using (List.mem_filter.mp hv).2
  have hnotin : u ∉ (classify_index_files col.index_files).1 := by
    intro hu
    have h := hjson u hu
    rw [hext] at h
    exact absurd h (by decide)
  refine ⟨?_, ?_, ?_, ?_⟩
  · rw [classify_spec]
    have hmemf : u ∈ col.index_files.filter (fun v => extOf v == ".txt") :=
      List.mem_filter.mpr ⟨hmem, by simp [hext]⟩
    simpa using List.length_pos.mpr (List.ne_nil_of_mem hmemf)
  · simpa [get_files_and_json_indexes_urls] using hnotin
  · rw [processCollection_fetched]
    simp only [List.mem_append]
    rintro (h | h)
    · exact hfetched h
    · exact hnotin h
  · refine processCollection_congr cfg net docs docs' st col ?_
    intro v hv
    refine hagree v ?_
    intro hvu
    subst hvu
    exact hnotin hv

/-- Claim C7 witness: the concrete `.txt` index entry of `colTxtW` is
recognized, not surfaced, not fetched, and swapping the document behind it
leaves the run unchanged. -/
theorem claim_C7_txt_witness :
    txtW ∈ colTxtW.index_files
    ∧ extOf txtW = ".txt"
    ∧ 0 < (classify_index_files colTxtW.index_files).2
    ∧ txtW ∉ (get_files_and_json_indexes_urls colTxtW).2
    ∧ txtW ∉
        (processCollection cfgW netCreated docsRunW stInit colTxtW).fetched_indexes
    ∧ processCollection cfgW netCreated docsRunW stInit colTxtW
        = processCollection cfgW netCreated docsTxtAltW stInit colTxtW := by
  have h := claim_C7_txt colTxtW txtW cfgW netCreated docsRunW docsTxtAltW
    stInit (by decide) (by decide) (by simp [stInit])
    (fun v hv => by simp [docsTxtAltW, hv])
  exact ⟨by decide, by decide, h.1, h.2.1, h.2.2.1, h.2.2.2⟩

/-- Claim C8: a run over one collection with 3 direct descriptors and one
`.json` index URL whose document holds 2 descriptors, in which all 5
registrations succeed, ends with count 5 and bytes equal to the sum of the
5 sizes. -/
theorem claim_C8_run (cfg : RunConfig) (net : Nat → HttpOutcome)
    (docs : String → List FileSpec) (a b c d e : FileSpec) (iu : String)
    (hext : extOf iu = ".json") (hdocs : docs iu = [d, e])
    (hnet : ∀ j, j < 5 → isCreated (net j) = true) :
    (runMain cfg net docs [⟨[a, b, c], [iu]⟩]).total_count = 5
    ∧ (runMain cfg net docs [⟨[a, b, c], [iu]⟩]).total_size
        = a.size + b.size + c.size + d.size + e.size := by
  have hcl : classify_index_files [iu] = ([iu], 0) := by
    rw [classify_spec]
    simp [hext]
  have hdirect := createdTotals_all net [a, b, c] 0
    (fun j hj => by simpa using hnet j (by simp at hj; omega))
  have hidx := createdTotals_all net [d, e] 3
    (fun j hj => hnet (3 + j) (by simp at hj; omega))
  have hrun : runMain cfg net docs [⟨[a, b, c], [iu]⟩]
      = processCollection cfg net docs stInit ⟨[a, b, c], [iu]⟩ := rfl
  have hcl1 : (classify_index_files [iu]).1 = [iu] := by rw [hcl]
  rw [hrun, processCollection_eq, hcl1, driverFold_eq, List.foldl_cons,
    List.foldl_nil, indexUrlStep_eq]
  simp only [stInit]
  simp [hdocs, hdirect, hidx]
  omega

/-- Claim C8 witness: the concrete five-descriptor run with every POST
returning 201 ends with count 5 and the summed sizes. -/
theorem claim_C8_run_witness :
    extOf iuW = ".json"
    ∧ docsRunW iuW = [fsD, fsE]
    ∧ (runMain cfgW netCreated docsRunW [⟨[fsA, fsB, fsC], [iuW]⟩]).total_count
        = 5
    ∧ (runMain cfgW netCreated docsRunW [⟨[fsA, fsB, fsC], [iuW]⟩]).total_size
        = fsA.size + fsB.size + fsC.size + fsD.size + fsE.size := by
  have h := claim_C8_run cfgW netCreated docsRunW fsA fsB fsC fsD fsE iuW
    (by decide) (by decide) (fun j hj => rfl)
  exact ⟨by decide, by decide, h.1, h.2⟩

/-- Claim C9: every registrar invocation issues exactly one HTTP POST with
no retry, two invocations on the same descriptor issue two independent
identical POSTs with no deduplication, and a driver iteration appends
exactly one POST to the run trace. -/
theorem claim_C9_one_post (cfg : RunConfig) (u : String) (s : Nat)
    (c : String) (o o' : HttpOutcome) (net : Nat → HttpOutcome)
    (st : RunState) (fs : FileSpec) :
    (register_file cfg u s c o).posts = [register_request cfg u s c]
    ∧ (register_file cfg u s c o).posts ++ (register_file cfg u s c o').posts
        = [register_request cfg u s c, register_request cfg u s c]
    ∧ (driverStep cfg net st fs).posts
        = st.posts ++ [register_request cfg fs.uri fs.size fs.checksum] := by
  refine ⟨register_posts cfg u s c o, ?_, ?_⟩
  · rw [register_posts, register_posts]
    rfl
  · rw [driverStep_eq]

/-- Claim C10: index entries whose extension is neither `.json` nor `.txt`
are silently ignored by the resolver — removing such an entry leaves the
classifier's whole result unchanged — and the resolver returns exactly the
`.json` index URLs in manifest order. -/
theorem claim_C10_other_ext (col : Collection) (l1 l2 : List String)
    (u : String) (h1 : extOf u ≠ ".json") (h2 : extOf u ≠ ".txt") :
    classify_index_files (l1 ++ u :: l2) = classify_index_files (l1 ++ l2)
    ∧ (get_files_and_json_indexes_urls col).2
        = col.index_files.filter (fun v => extOf v == ".json") := by
  constructor
  · rw [classify_spec, classify_spec]
    simp [List.filter_append, h1, h2]
  · simp [get_files_and_json_indexes_urls, classify_spec]

/-- Claim C10 witness: a `.md` index entry is dropped without affecting
the classifier, and the concrete resolver output is the `.json` filter. -/
theorem claim_C10_other_ext_witness :
    extOf "https://opendata.example.org/record/1/readme.md" ≠ ".json"
    ∧ extOf "https://opendata.example.org/record/1/readme.md" ≠ ".txt"
    ∧ classify_index_files
        ([iuW] ++ "https://opendata.example.org/record/1/readme.md" :: [txtW])
        = classify_index_files ([iuW] ++ [txtW])
    ∧ (get_files_and_json_indexes_urls colTxtW).2
        = colTxtW.index_files.filter (fun v => extOf v == ".json") := by
  have h := claim_C10_other_ext colTxtW [iuW] [txtW]
    "https://opendata.example.org/record/1/readme.md" (by decide) (by decide)
  exact ⟨by decide, by decide, h.1, h.2⟩
